import Mathlib

/-!
Shallow embedding of the questdb-typesafe-client SQL core
(src/sql/escape.ts, src/sql/format.ts, src/sql/serialize.ts,
src/query/expression.ts, src/query/insert.ts, src/ddl/create.ts,
src/types/result.ts), together with theorems settling the frozen
claims about its specification.

Modelling conventions:
* JavaScript runtime values that can reach the formatter or the result
  coercion are embedded as the inductive `JSVal`.  JS numbers are
  restricted to integral values (`Int`): no claim under verification
  depends on non-integral float rendering, and IEEE float text rendering
  is outside the scope of the embedding.  A `Date` is represented by its
  `toISOString()` rendering, which is the only attribute of a date the
  serializer reads.
* JS `bigint` is embedded as `Int` (arbitrary precision on both sides).
* Fallible TS code (functions that `throw`) is embedded with
  `Except String`.
-/

namespace QuestDB

/-- The closed `QuestDBType` union from src/types/column.ts. -/
inductive QuestDBType where
  | boolean
  | byte
  | short
  | char
  | int
  | float
  | long
  | double
  | decimal
  | date
  | timestamp
  | timestamp_ns
  | symbol
  | varchar
  | string
  | uuid
  | ipv4
  | binary
  | long256
  | geohash
  | array
deriving DecidableEq, Repr

/-- Embedding of the JavaScript values that can appear as literal values
or wire values.  `vnum` carries JS numbers restricted to integral values;
`vdate` carries a `Date` represented by its ISO-8601 rendering. -/
inductive JSVal where
  | vnull
  | vundefined
  | vbool (b : Bool)
  | vnum (n : Int)
  | vbig (n : Int)
  | vstr (s : String)
  | vdate (iso : String)
  | varr (elems : List JSVal)
deriving Repr

/-- JS `value === null || value === undefined`. -/
def JSVal.isNullish : JSVal → Bool
  | .vnull => true
  | .vundefined => true
  | _ => false

/-- JS `value === undefined`. -/
def JSVal.isUndefined : JSVal → Bool
  | .vundefined => true
  | _ => false

/-- JS truthiness of an embedded value. -/
def JSVal.truthy : JSVal → Bool
  | .vnull => false
  | .vundefined => false
  | .vbool b => b
  | .vnum n => n != 0
  | .vbig n => n != 0
  | .vstr s => s ≠ ""
  | .vdate _ => true
  | .varr _ => true

/-- JS `typeof value`. -/
def JSVal.typeofStr : JSVal → String
  | .vnull => "object"
  | .vundefined => "undefined"
  | .vbool _ => "boolean"
  | .vnum _ => "number"
  | .vbig _ => "bigint"
  | .vstr _ => "string"
  | .vdate _ => "object"
  | .varr _ => "object"

-- ---------------------------------------------------------------------------
-- Decimal rendering of integers (JS `String(n)` on an integral number or a
-- bigint) and decimal parsing (JS `BigInt(string)` restricted to the decimal
-- forms; the hexadecimal/octal/binary prefixes accepted by `BigInt` are not
-- modelled since nothing in the source produces them).
-- ---------------------------------------------------------------------------

/-- The single-quote character, kept out of literals by convention. -/
def quoteChar : Char := Char.ofNat 39

/-- A one-character string holding a single quote. -/
def sq : String := String.mk [quoteChar]

/-- The decimal digit `d` as a character (`0 ≤ d ≤ 9` in use). -/
def digitToChar (d : Nat) : Char := Char.ofNat (48 + d)

/-- Inverse of `digitToChar` on actual digit characters. -/
def charToDigit (c : Char) : Option Nat :=
  if 48 ≤ c.toNat ∧ c.toNat ≤ 57 then some (c.toNat - 48) else none

/-- Decimal character rendering of a natural number, most significant
digit first (JS `String(n)`). -/
def natDecChars (n : Nat) : List Char :=
  if n = 0 then [digitToChar 0] else ((Nat.digits 10 n).map digitToChar).reverse

/-- Decimal rendering of a natural number. -/
def natDec (n : Nat) : String := String.mk (natDecChars n)

/-- Decimal rendering of an integer (JS `String(i)` for an integral
number or bigint). -/
def intDec (i : Int) : String :=
  match i with
  | .ofNat n => natDec n
  | .negSucc n => "-" ++ natDec (n + 1)

/-- Parse a non-empty run of decimal digit characters. -/
def parseNatDigits (cs : List Char) : Option Nat :=
  cs.foldl (fun acc c => acc.bind fun a => (charToDigit c).map fun d => a * 10 + d) (some 0)

/-- Digits with at least one character, as required after a sign. -/
def parseNonEmptyDigits (cs : List Char) : Option Nat :=
  if cs.isEmpty then none else parseNatDigits cs

/-- JS `BigInt(string)` on the decimal fragment of its grammar:
optional sign followed by decimal digits; the empty string parses to 0;
anything else throws (`none`). -/
def parseBigInt (s : String) : Option Int :=
  match s.data with
  | [] => some 0
  | c :: rest =>
    if c = '-' then (parseNonEmptyDigits rest).map (fun n => -(n : Int))
    else if c = '+' then (parseNonEmptyDigits rest).map (fun n => (n : Int))
    else (parseNatDigits (c :: rest)).map (fun n => (n : Int))

-- ---------------------------------------------------------------------------
-- String rendering of JS values (JS `String(value)` / template literals).
-- ---------------------------------------------------------------------------

mutual

/-- JS `String(value)` on the embedded values.  A date renders as its
ISO string in this embedding (only the ISO rendering ever reaches SQL
text in the source). -/
def jsToString : JSVal → String
  | .vnull => "null"
  | .vundefined => "undefined"
  | .vbool b => if b then "true" else "false"
  | .vnum n => intDec n
  | .vbig n => intDec n
  | .vstr s => s
  | .vdate iso => iso
  | .varr elems => joinComma elems

/-- JS `Array.prototype.join(",")`: elements rendered with `String`,
null/undefined elements rendered as the empty string. -/
def joinComma : List JSVal → String
  | [] => ""
  | [v] => if v.isNullish then "" else jsToString v
  | v :: rest => (if v.isNullish then "" else jsToString v) ++ "," ++ joinComma rest

end

-- ---------------------------------------------------------------------------
-- src/sql/escape.ts
-- ---------------------------------------------------------------------------

/-- First character class of the safe-identifier regex
`[a-zA-Z_]`. -/
def isIdentStart (c : Char) : Bool :=
  (97 ≤ c.toNat && c.toNat ≤ 122) || (65 ≤ c.toNat && c.toNat ≤ 90) || c.toNat = 95

/-- Subsequent character class `[a-zA-Z0-9_]`. -/
def isIdentChar (c : Char) : Bool :=
  isIdentStart c || (48 ≤ c.toNat && c.toNat ≤ 57)

/-- The test `/^[a-zA-Z_][a-zA-Z0-9_]*$/.test(name)` on the character
list. -/
def isSafeIdentChars : List Char → Bool
  | [] => false
  | c :: cs => isIdentStart c && cs.all isIdentChar

/-- Safe-identifier test on a string. -/
def isSafeIdent (s : String) : Bool := isSafeIdentChars s.data

/-- `name.replace(/"/g, String.fromCharCode(34, 34))`: double every
double quote. -/
def doubleQuoteChars : List Char → List Char
  | [] => []
  | c :: cs => if c = '"' then '"' :: '"' :: doubleQuoteChars cs else c :: doubleQuoteChars cs

/-- `escapeIdentifier` from src/sql/escape.ts: safe identifiers pass
through, anything else is wrapped in double quotes with internal double
quotes doubled. -/
def escapeIdentifier (name : String) : String :=
  if isSafeIdent name then name
  else String.mk ('"' :: (doubleQuoteChars name.data ++ ['"']))

/-- Double every single quote (the body of `escapeString`). -/
def escapeQuoteChars : List Char → List Char
  | [] => []
  | c :: cs =>
    if c = quoteChar then quoteChar :: quoteChar :: escapeQuoteChars cs
    else c :: escapeQuoteChars cs

/-- `escapeString` from src/sql/escape.ts. -/
def escapeString (value : String) : String := String.mk (escapeQuoteChars value.data)

-- ---------------------------------------------------------------------------
-- src/sql/format.ts : formatValue
-- ---------------------------------------------------------------------------

/-- Wrap a rendered value in single quotes after escaping. -/
def quoted (s : String) : String := sq ++ escapeString s ++ sq

/-- `formatValue(value, type)` from src/sql/format.ts.  A thrown
`Error` is embedded as `Except.error` carrying the message. -/
def formatValue (value : JSVal) (type : QuestDBType) : Except String String :=
  if value.isNullish then .ok "NULL"
  else
    match type with
    | .boolean => .ok (if value.truthy then "true" else "false")
    | .byte | .short | .int | .float | .double => .ok (jsToString value)
    | .long => .ok (jsToString value)
    | .decimal => .ok (quoted (jsToString value))
    | .char => .ok (quoted (jsToString value))
    | .varchar | .string | .symbol | .uuid | .ipv4 | .long256 =>
      .ok (quoted (jsToString value))
    | .timestamp | .date =>
      match value with
      | .vdate iso => .ok (sq ++ iso ++ sq)
      | .vnum n => .ok (intDec n)
      | .vbig n => .ok (intDec n)
      | _ => .ok (quoted (jsToString value))
    | .timestamp_ns => .ok (jsToString value)
    | .geohash => .ok ("##" ++ jsToString value)
    | .binary => .error "Binary values cannot be inserted via SQL; use the /imp endpoint"
    | .array =>
      match value with
      | .varr elems => .ok ("\x7b" ++ joinComma elems ++ "\x7d")
      | _ => .error ("Expected array value, got " ++ value.typeofStr)

-- ---------------------------------------------------------------------------
-- src/types/sql.ts : statement/expression AST
-- ---------------------------------------------------------------------------

/-- `FillStrategy`: a fill keyword string or a `{constant: value}` record. -/
inductive Fill where
  | strategy (s : String)
  | constant (c : JSVal)
deriving Repr

/-- `SampleByClause`. -/
structure SampleByClause where
  interval : String
  fill : List Fill
  align : Option String
deriving Repr

/-- `LatestOnClause`. -/
structure LatestOnClause where
  timestamp : String
  partitionBy : List String
deriving Repr

/-- `{count, offset?}` of the LIMIT clause. -/
structure LimitClause where
  count : Int
  offset : Option Int
deriving Repr

mutual

/-- `SqlExpr` from src/types/sql.ts.  Constructor names track the
`kind` discriminants of the TS union. -/
inductive SqlExpr where
  | column (name : String) (table : Option String)
  | literal (value : JSVal) (ty : QuestDBType)
  | binary (op : String) (left right : SqlExpr)
  | unary (op : String) (operand : SqlExpr)
  | func (name : String) (args : List SqlExpr)
  | aggregate (name : String) (args : List SqlExpr) (al : Option String)
  | subquery (sql : SelectNode)
  | timestamp_in (column : String) (interval : String)
  | in_list (column : String) (values : List SqlExpr)
  | between (column : String) (low high : SqlExpr)
  | is_null (column : String) (negated : Bool)
  | raw (sql : String)

/-- `FromClause`: a named table or an aliased subquery. -/
inductive FromClause where
  | table (name : String) (al : Option String)
  | subquery (select : SelectNode) (al : String)

/-- `JoinClause`: join type tag, source, optional ON predicate, and the
optional tolerance string (the source stores but never renders it). -/
inductive JoinClause where
  | mk (ty : String) (table : FromClause) (onE : Option SqlExpr) (tolerance : Option String)

/-- `SelectNode`: the ten clause fields of a SELECT statement record.
A projection entry pairs an expression with an optional alias; an
ORDER BY entry pairs an expression with its direction string. -/
inductive SelectNode where
  | mk (distinct : Bool) (columns : List (SqlExpr × Option String)) (src : FromClause)
       (joins : List JoinClause) (whereE : Option SqlExpr) (groupBy : List SqlExpr)
       (orderBy : List (SqlExpr × String)) (lim : Option LimitClause)
       (sampleBy : Option SampleByClause) (latestOn : Option LatestOnClause)

end

/-- DISTINCT flag of a `SelectNode`. -/
def SelectNode.distinct : SelectNode → Bool
  | .mk d _ _ _ _ _ _ _ _ _ => d

/-- Projection list of a `SelectNode`. -/
def SelectNode.columns : SelectNode → List (SqlExpr × Option String)
  | .mk _ c _ _ _ _ _ _ _ _ => c

/-- FROM source of a `SelectNode`. -/
def SelectNode.src : SelectNode → FromClause
  | .mk _ _ s _ _ _ _ _ _ _ => s

/-- Join list of a `SelectNode`. -/
def SelectNode.joins : SelectNode → List JoinClause
  | .mk _ _ _ j _ _ _ _ _ _ => j

/-- WHERE expression of a `SelectNode`. -/
def SelectNode.whereE : SelectNode → Option SqlExpr
  | .mk _ _ _ _ w _ _ _ _ _ => w

/-- GROUP BY list of a `SelectNode`. -/
def SelectNode.groupBy : SelectNode → List SqlExpr
  | .mk _ _ _ _ _ g _ _ _ _ => g

/-- ORDER BY list of a `SelectNode`. -/
def SelectNode.orderBy : SelectNode → List (SqlExpr × String)
  | .mk _ _ _ _ _ _ o _ _ _ => o

/-- LIMIT clause of a `SelectNode`. -/
def SelectNode.lim : SelectNode → Option LimitClause
  | .mk _ _ _ _ _ _ _ l _ _ => l

/-- SAMPLE BY clause of a `SelectNode`. -/
def SelectNode.sampleBy : SelectNode → Option SampleByClause
  | .mk _ _ _ _ _ _ _ _ sb _ => sb

/-- LATEST ON clause of a `SelectNode`. -/
def SelectNode.latestOn : SelectNode → Option LatestOnClause
  | .mk _ _ _ _ _ _ _ _ _ lo => lo

-- ---------------------------------------------------------------------------
-- src/sql/serialize.ts : expression and SELECT serialization
-- ---------------------------------------------------------------------------

/-- Render a FILL entry: a constant renders via `String(f.constant)`,
a strategy keyword renders as itself. -/
def renderFill : Fill → String
  | .strategy s => s
  | .constant c => jsToString c

/-- The SELECT line: keyword plus `*` or the rendered projection list. -/
def selectLine (distinct : Bool) (cols : List String) : String :=
  let kw := if distinct then "SELECT DISTINCT" else "SELECT"
  if cols.isEmpty then kw ++ " *" else kw ++ " " ++ String.intercalate ", " cols

mutual

/-- `serializeExpr` from src/sql/serialize.ts.  Errors thrown by
`formatValue` propagate as `Except.error`. -/
def serializeExpr : SqlExpr → Except String String
  | .column name tbl =>
    .ok (match tbl with
      | some t => escapeIdentifier t ++ "." ++ escapeIdentifier name
      | none => escapeIdentifier name)
  | .literal v ty => formatValue v ty
  | .binary op l r => do
    let ls ← serializeExpr l
    let rs ← serializeExpr r
    .ok ("(" ++ ls ++ " " ++ op ++ " " ++ rs ++ ")")
  | .unary op e => do
    let s ← serializeExpr e
    .ok ("(" ++ op ++ " " ++ s ++ ")")
  | .func name args => do
    let ss ← serializeExprList args
    .ok (name ++ "(" ++ String.intercalate ", " ss ++ ")")
  | .aggregate name args al => do
    let ss ← serializeExprList args
    let base := name ++ "(" ++ String.intercalate ", " ss ++ ")"
    .ok (match al with
      | some a => base ++ " AS " ++ escapeIdentifier a
      | none => base)
  | .subquery s => do
    let q ← serializeSelect s
    .ok ("(" ++ q ++ ")")
  | .timestamp_in col interval =>
    .ok (escapeIdentifier col ++ " IN " ++ sq ++ escapeString interval ++ sq)
  | .in_list col vs => do
    let ss ← serializeExprList vs
    .ok (escapeIdentifier col ++ " IN (" ++ String.intercalate ", " ss ++ ")")
  | .between col lo hi => do
    let ls ← serializeExpr lo
    let hs ← serializeExpr hi
    .ok (escapeIdentifier col ++ " BETWEEN " ++ ls ++ " AND " ++ hs)
  | .is_null col negated =>
    .ok (escapeIdentifier col ++ (if negated then " IS NOT NULL" else " IS NULL"))
  | .raw s => .ok s

/-- Serialize a list of expressions (the `.map(serializeExpr)` calls). -/
def serializeExprList : List SqlExpr → Except String (List String)
  | [] => .ok []
  | e :: rest => do
    let s ← serializeExpr e
    let ss ← serializeExprList rest
    .ok (s :: ss)

/-- Serialize the projection entries (expression plus optional alias). -/
def serializeColumnList : List (SqlExpr × Option String) → Except String (List String)
  | [] => .ok []
  | (e, al) :: rest => do
    let s ← serializeExpr e
    let ss ← serializeColumnList rest
    .ok ((match al with
      | some a => s ++ " AS " ++ escapeIdentifier a
      | none => s) :: ss)

/-- Serialize the join clauses (one line each). -/
def serializeJoinList : List JoinClause → Except String (List String)
  | [] => .ok []
  | .mk ty tbl onE _ :: rest => do
    let t ← serializeFrom tbl
    let base := ty ++ " JOIN " ++ t
    let line ← match onE with
      | some e => do
        let s ← serializeExpr e
        pure (base ++ " ON " ++ s)
      | none => pure base
    let ss ← serializeJoinList rest
    .ok (line :: ss)

/-- Serialize the ORDER BY entries. -/
def serializeOrderList : List (SqlExpr × String) → Except String (List String)
  | [] => .ok []
  | (e, dir) :: rest => do
    let s ← serializeExpr e
    let ss ← serializeOrderList rest
    .ok ((s ++ " " ++ dir) :: ss)

/-- `serializeFrom` from src/sql/serialize.ts. -/
def serializeFrom : FromClause → Except String String
  | .table name al =>
    .ok (match al with
      | some a => escapeIdentifier name ++ " " ++ escapeIdentifier a
      | none => escapeIdentifier name)
  | .subquery s al => do
    let q ← serializeSelect s
    .ok ("(" ++ q ++ ") " ++ escapeIdentifier al)

/-- `serializeSelect` from src/sql/serialize.ts: one line per present
clause, in fixed order, joined with newlines. -/
def serializeSelect : SelectNode → Except String String
  | .mk d cols src joins whereE groupBy orderBy lim sampleBy latestOn => do
    let colStrs ← serializeColumnList cols
    let fromStr ← serializeFrom src
    let joinLines ← serializeJoinList joins
    let latestLines : List String :=
      match latestOn with
      | some lo =>
        ["LATEST ON " ++ escapeIdentifier lo.timestamp ++ " PARTITION BY " ++
          String.intercalate ", " (lo.partitionBy.map escapeIdentifier)]
      | none => []
    let whereLines ← match whereE with
      | some w => do
        let s ← serializeExpr w
        pure ["WHERE " ++ s]
      | none => pure ([] : List String)
    let sampleLines : List String :=
      match sampleBy with
      | some sb =>
        ["SAMPLE BY " ++ sb.interval] ++
        (if sb.fill.isEmpty then []
         else ["FILL(" ++ String.intercalate ", " (sb.fill.map renderFill) ++ ")"]) ++
        (match sb.align with
          | some a => ["ALIGN TO " ++ a]
          | none => [])
      | none => []
    let groupLines ← match groupBy with
      | [] => pure ([] : List String)
      | gs => do
        let ss ← serializeExprList gs
        pure ["GROUP BY " ++ String.intercalate ", " ss]
    let orderLines ← match orderBy with
      | [] => pure ([] : List String)
      | os => do
        let ss ← serializeOrderList os
        pure ["ORDER BY " ++ String.intercalate ", " ss]
    let limitLines : List String :=
      match lim with
      | some l =>
        ["LIMIT " ++ intDec l.count ++
          (match l.offset with
            | some o => ", " ++ intDec o
            | none => "")]
      | none => []
    .ok (String.intercalate "\n"
      ([selectLine d colStrs, "FROM " ++ fromStr] ++ joinLines ++ latestLines ++
        whereLines ++ sampleLines ++ groupLines ++ orderLines ++ limitLines))

end

-- ---------------------------------------------------------------------------
-- src/query/expression.ts : logical combinators
-- ---------------------------------------------------------------------------

/-- Left fold of a binary AND chain (`exprs.reduce` with the first
element as accumulator). -/
def mkAnd (a b : SqlExpr) : SqlExpr := .binary "AND" a b

/-- Left fold of a binary OR chain. -/
def mkOr (a b : SqlExpr) : SqlExpr := .binary "OR" a b

/-- `and(...exprs)` from src/query/expression.ts: empty throws, a
singleton returns its element, longer lists left-fold into a binary
chain. -/
def andCombine : List SqlExpr → Except String SqlExpr
  | [] => .error "and() requires at least one expression"
  | [e] => .ok e
  | e :: rest => .ok (rest.foldl mkAnd e)

/-- `or(...exprs)` from src/query/expression.ts. -/
def orCombine : List SqlExpr → Except String SqlExpr
  | [] => .error "or() requires at least one expression"
  | [e] => .ok e
  | e :: rest => .ok (rest.foldl mkOr e)

/-- `not(expr)`. -/
def notCombine (e : SqlExpr) : SqlExpr := .unary "NOT" e

-- ---------------------------------------------------------------------------
-- Table definitions (src/types/column.ts, src/schema): the fragment the
-- query builders read.  Only `qdbType` and the designated flag of the
-- column metadata are consulted by the code under verification.
-- ---------------------------------------------------------------------------

/-- A column definition: its engine type and the designated-timestamp
flag of its metadata. -/
structure QCol where
  qdbType : QuestDBType
  designated : Bool
deriving DecidableEq, Repr

/-- A table definition: name plus ordered column list (the order of
`Object.entries(def.columns)`, keys distinct). -/
structure TableDef where
  name : String
  columns : List (String × QCol)
deriving Repr

/-- `findDesignatedColumn` from src/ddl/create.ts: name of the first
column whose metadata carries the designated flag. -/
def findDesignatedColumn (columns : List (String × QCol)) : Option String :=
  (columns.find? fun e => e.2.designated).map (·.1)

-- ---------------------------------------------------------------------------
-- src/query/select.ts : SelectBuilder
-- ---------------------------------------------------------------------------

/-- The SELECT builder state: the bound table definition and the owned
`SelectNode`.  The transport client is an external collaborator and is
not part of the state the verified code reads. -/
structure SelectBuilder where
  tdef : TableDef
  node : SelectNode

/-- The initial node built by the `SelectBuilder` constructor. -/
def initialNode (tdef : TableDef) : SelectNode :=
  .mk false [] (.table tdef.name none) [] none [] [] none none none

/-- `table.select()`: a fresh builder over the initial node. -/
def SelectBuilder.init (tdef : TableDef) : SelectBuilder :=
  ⟨tdef, initialNode tdef⟩

/-- Overlay the DISTINCT flag (the `clone` spread with a patch). -/
def SelectNode.withDistinct (n : SelectNode) (d : Bool) : SelectNode :=
  match n with
  | .mk _ c s j w g o l sb lo => .mk d c s j w g o l sb lo

/-- Overlay the projection list. -/
def SelectNode.withColumns (n : SelectNode) (c : List (SqlExpr × Option String)) : SelectNode :=
  match n with
  | .mk d _ s j w g o l sb lo => .mk d c s j w g o l sb lo

/-- Overlay the join list. -/
def SelectNode.withJoins (n : SelectNode) (j : List JoinClause) : SelectNode :=
  match n with
  | .mk d c s _ w g o l sb lo => .mk d c s j w g o l sb lo

/-- Overlay the WHERE expression. -/
def SelectNode.withWhere (n : SelectNode) (w : Option SqlExpr) : SelectNode :=
  match n with
  | .mk d c s j _ g o l sb lo => .mk d c s j w g o l sb lo

/-- Overlay the GROUP BY list. -/
def SelectNode.withGroupBy (n : SelectNode) (g : List SqlExpr) : SelectNode :=
  match n with
  | .mk d c s j w _ o l sb lo => .mk d c s j w g o l sb lo

/-- Overlay the ORDER BY list. -/
def SelectNode.withOrderBy (n : SelectNode) (o : List (SqlExpr × String)) : SelectNode :=
  match n with
  | .mk d c s j w g _ l sb lo => .mk d c s j w g o l sb lo

/-- Overlay the LIMIT clause. -/
def SelectNode.withLimit (n : SelectNode) (l : Option LimitClause) : SelectNode :=
  match n with
  | .mk d c s j w g o _ sb lo => .mk d c s j w g o l sb lo

/-- Overlay the SAMPLE BY clause. -/
def SelectNode.withSampleBy (n : SelectNode) (sb : Option SampleByClause) : SelectNode :=
  match n with
  | .mk d c s j w g o l _ lo => .mk d c s j w g o l sb lo

/-- Overlay the LATEST ON clause. -/
def SelectNode.withLatestOn (n : SelectNode) (lo : Option LatestOnClause) : SelectNode :=
  match n with
  | .mk d c s j w g o l sb _ => .mk d c s j w g o l sb lo

/-- `.distinct()`. -/
def SelectBuilder.distinct (b : SelectBuilder) : SelectBuilder :=
  { b with node := b.node.withDistinct true }

/-- `.columns(...cols)`: replaces the projection list with plain column
references. -/
def SelectBuilder.columns (b : SelectBuilder) (cols : List String) : SelectBuilder :=
  { b with node := b.node.withColumns (cols.map fun c => (SqlExpr.column c none, none)) }

/-- `.addExpr(expr, alias?)`: appends one projection entry. -/
def SelectBuilder.addExpr (b : SelectBuilder) (e : SqlExpr) (al : Option String) : SelectBuilder :=
  { b with node := b.node.withColumns (b.node.columns ++ [(e, al)]) }

/-- `.where(fn)`: `e` stands for the expression the caller callback
returned (`fn(buildColumnExprs(def))` in the source). -/
def SelectBuilder.whereExpr (b : SelectBuilder) (e : SqlExpr) : SelectBuilder :=
  { b with node := b.node.withWhere (some e) }

/-- `.andWhere(fn)`: conjoins with an existing WHERE, otherwise becomes
the WHERE. -/
def SelectBuilder.andWhere (b : SelectBuilder) (e : SqlExpr) : SelectBuilder :=
  { b with node := b.node.withWhere (some (match b.node.whereE with
      | some w => SqlExpr.binary "AND" w e
      | none => e)) }

/-- `.whereTimestamp(column, interval)`. -/
def SelectBuilder.whereTimestamp (b : SelectBuilder) (col interval : String) : SelectBuilder :=
  { b with node := b.node.withWhere (some (match b.node.whereE with
      | some w => SqlExpr.binary "AND" w (SqlExpr.timestamp_in col interval)
      | none => SqlExpr.timestamp_in col interval)) }

/-- The variadic `fill` parameter normalization of `.sampleBy`:
absent becomes the empty list, a single strategy becomes a singleton. -/
def normalizeFill : Option (Fill ⊕ List Fill) → List Fill
  | none => []
  | some (.inl f) => [f]
  | some (.inr l) => l

/-- `.sampleBy(interval, fill?, align?)`. -/
def SelectBuilder.sampleBy (b : SelectBuilder) (interval : String)
    (fill : Option (Fill ⊕ List Fill)) (align : Option String) : SelectBuilder :=
  { b with node := b.node.withSampleBy (some ⟨interval, normalizeFill fill, align⟩) }

/-- `.latestOn(...partitionBy)`: throws at call time when the bound
table has no designated timestamp column. -/
def SelectBuilder.latestOn (b : SelectBuilder) (partitionBy : List String) :
    Except String SelectBuilder :=
  match findDesignatedColumn b.tdef.columns with
  | none => .error "LATEST ON requires a designated timestamp column"
  | some d => .ok { b with node := b.node.withLatestOn (some ⟨d, partitionBy⟩) }

/-- The shared join construction routine `joinWith`: appends one join
clause; `onE` stands for the ON expression the caller callback
returned, if any. -/
def SelectBuilder.joinWith (b : SelectBuilder) (ty : String) (right : TableDef)
    (al : String) (onE : Option SqlExpr) (tolerance : Option String) : SelectBuilder :=
  let j := JoinClause.mk ty (.table right.name (some al)) onE tolerance
  { b with node := b.node.withJoins (b.node.joins ++ [j]) }

/-- `.asofJoin(right, alias, on?, tolerance?)`. -/
def SelectBuilder.asofJoin (b : SelectBuilder) (right : TableDef) (al : String)
    (onE : Option SqlExpr) (tolerance : Option String) : SelectBuilder :=
  b.joinWith "ASOF" right al onE tolerance

/-- `.ltJoin(right, alias, on?, tolerance?)`. -/
def SelectBuilder.ltJoin (b : SelectBuilder) (right : TableDef) (al : String)
    (onE : Option SqlExpr) (tolerance : Option String) : SelectBuilder :=
  b.joinWith "LT" right al onE tolerance

/-- `.spliceJoin(right, alias, on?)`. -/
def SelectBuilder.spliceJoin (b : SelectBuilder) (right : TableDef) (al : String)
    (onE : Option SqlExpr) : SelectBuilder :=
  b.joinWith "SPLICE" right al onE none

/-- `.innerJoin(right, alias, on)`. -/
def SelectBuilder.innerJoin (b : SelectBuilder) (right : TableDef) (al : String)
    (onE : SqlExpr) : SelectBuilder :=
  b.joinWith "INNER" right al (some onE) none

/-- `.leftJoin(right, alias, on)`. -/
def SelectBuilder.leftJoin (b : SelectBuilder) (right : TableDef) (al : String)
    (onE : SqlExpr) : SelectBuilder :=
  b.joinWith "LEFT" right al (some onE) none

/-- `.crossJoin(right, alias)`. -/
def SelectBuilder.crossJoin (b : SelectBuilder) (right : TableDef) (al : String) :
    SelectBuilder :=
  b.joinWith "CROSS" right al none none

/-- `.orderBy(column, direction)`. -/
def SelectBuilder.orderBy (b : SelectBuilder) (col dir : String) : SelectBuilder :=
  { b with node := b.node.withOrderBy (b.node.orderBy ++ [(SqlExpr.column col none, dir)]) }

/-- `.limit(count, offset?)`. -/
def SelectBuilder.limit (b : SelectBuilder) (count : Int) (offset : Option Int) :
    SelectBuilder :=
  { b with node := b.node.withLimit (some ⟨count, offset⟩) }

/-- `.groupBy(...columns)`. -/
def SelectBuilder.groupBy (b : SelectBuilder) (cols : List String) : SelectBuilder :=
  { b with node := b.node.withGroupBy (cols.map fun c => SqlExpr.column c none) }

/-- `SelectBuilder.toSQL`: guards SAMPLE BY against an empty projection
list before any serialization, then renders the node. -/
def SelectBuilder.toSQL (b : SelectBuilder) : Except String String :=
  if b.node.sampleBy.isSome && b.node.columns.isEmpty then
    .error ("SAMPLE BY requires explicit columns with at least one aggregation function. " ++
      "Use .columns() and .addExpr(fn.avg(...)) instead of SELECT *.")
  else serializeSelect b.node

-- ---------------------------------------------------------------------------
-- src/query/insert.ts : InsertBuilder and src/sql/serialize.ts :
-- serializeInsert
-- ---------------------------------------------------------------------------

/-- A value cell in the row matrix: either the `{_rawSQL}` token escape
(a pre-rendered raw fragment) or a plain value to be formatted. -/
inductive Cell where
  | rawSQL (sql : String)
  | plain (v : JSVal)
deriving Repr

/-- `InsertNode` from src/types/sql.ts. -/
structure InsertNode where
  table : String
  columns : List String
  values : List (List Cell)
  columnTypes : List QuestDBType
deriving Repr

/-- Render one value cell: the `{_rawSQL}` token escape is emitted
verbatim (bypassing literal formatting), a plain value is formatted
against its declared column type. -/
def cellRender (c : Cell) (t : QuestDBType) : Except String String :=
  match c with
  | .rawSQL s => .ok s
  | .plain v => formatValue v t

/-- Serialize the cells of one row against the declared column types
(`node.columnTypes[i] ?? "varchar"`). -/
def serializeCells : List Cell → List QuestDBType → Except String (List String)
  | [], _ => .ok []
  | c :: cs, ts => do
    let s ← cellRender c (ts.headD .varchar)
    let rest ← serializeCells cs ts.tail
    .ok (s :: rest)

/-- Serialize every row of the matrix. -/
def serializeRows : List (List Cell) → List QuestDBType → Except String (List String)
  | [], _ => .ok []
  | r :: rs, ts => do
    let ss ← serializeCells r ts
    let rest ← serializeRows rs ts
    .ok (String.intercalate ", " ss :: rest)

/-- `serializeInsert` from src/sql/serialize.ts: an empty row matrix
throws before any text is produced. -/
def serializeInsert (node : InsertNode) : Except String String :=
  if node.values.isEmpty then .error "INSERT requires at least one row"
  else do
    let rows ← serializeRows node.values node.columnTypes
    .ok (String.intercalate "\n"
      ["INSERT INTO " ++ escapeIdentifier node.table,
       "(" ++ String.intercalate ", " (node.columns.map escapeIdentifier) ++ ")",
       "VALUES",
       String.intercalate ",\n" (rows.map fun v => "(" ++ v ++ ")")])

/-- One accumulated row: a JS record embedded as an association list
with distinct keys (`row[key]` of a missing key is `undefined`). -/
def Row := List (String × JSVal)

/-- JS property read `row[name]` (missing keys read as `undefined`). -/
def rowGet (r : Row) (name : String) : JSVal :=
  match r.find? (fun e => e.1 = name) with
  | some e => e.2
  | none => .vundefined

/-- The `allKeys` set of `InsertBuilder.toSQL`: a column name is a
member when some row holds a defined value for it. -/
def allKeysHas (rows : List Row) (name : String) : Bool :=
  rows.any fun r => !(rowGet r name).isUndefined

/-- The designated-timestamp auto-injection scan: the first column
whose metadata is designated and whose name no row defines. -/
def pickDesignated (columns : List (String × QCol)) (rows : List Row) : Option String :=
  (columns.find? fun e => e.2.designated && !(allKeysHas rows e.1)).map (·.1)

/-- The column entries kept by `InsertBuilder.toSQL`: those appearing
in some row, plus the auto-injected designated column. -/
def insertedEntries (columns : List (String × QCol)) (rows : List Row) :
    List (String × QCol) :=
  columns.filter fun e => allKeysHas rows e.1 || pickDesignated columns rows == some e.1

/-- The value cell produced for column `name` of row `r`
(`{_rawSQL: now()}` for the omitted designated column, otherwise
`row[name] ?? null`). -/
def cellFor (dcol : Option String) (r : Row) (name : String) : Cell :=
  if dcol == some name && (rowGet r name).isUndefined then .rawSQL "now()"
  else .plain (if (rowGet r name).isNullish then .vnull else rowGet r name)

/-- The `InsertNode` assembled by `InsertBuilder.toSQL`. -/
def buildInsertNode (tdef : TableDef) (rows : List Row) : InsertNode :=
  let dcol := pickDesignated tdef.columns rows
  let entries := insertedEntries tdef.columns rows
  let colNames := entries.map (·.1)
  { table := tdef.name
    columns := colNames
    values := rows.map fun r => colNames.map (cellFor dcol r)
    columnTypes := entries.map (·.2.qdbType) }

/-- The INSERT builder state: bound table definition and accumulated
rows (mutated in place in the source; embedded as explicit state). -/
structure InsertBuilder where
  tdef : TableDef
  rows : List Row

/-- `.values(row)`: appends one row. -/
def InsertBuilder.values (b : InsertBuilder) (r : Row) : InsertBuilder :=
  { b with rows := b.rows ++ [r] }

/-- `.valuesMany(rows)`: appends many rows. -/
def InsertBuilder.valuesMany (b : InsertBuilder) (rs : List Row) : InsertBuilder :=
  { b with rows := b.rows ++ rs }

/-- `InsertBuilder.toSQL`. -/
def InsertBuilder.toSQL (b : InsertBuilder) : Except String String :=
  serializeInsert (buildInsertNode b.tdef b.rows)

/-- Outcome of `InsertBuilder.execute`: the resolved count together
with the SQL texts handed to the transport collaborator, or the thrown
error.  The transport round trip itself is the external collaborator
and is not interpreted. -/
inductive InsertExec where
  | resolved (count : Nat) (sent : List String)
  | failed (msg : String) (sent : List String)
deriving Repr

/-- `InsertBuilder.execute`: zero accumulated rows short-circuits to
`{count: 0}` without serializing and without calling the transport;
otherwise it serializes (propagating a throw) and sends the text. -/
def InsertBuilder.execute (b : InsertBuilder) : InsertExec :=
  if b.rows.isEmpty then .resolved 0 []
  else
    match b.toSQL with
    | .error m => .failed m []
    | .ok sql => .resolved b.rows.length [sql]

-- ---------------------------------------------------------------------------
-- src/types/result.ts : coerceValue
-- ---------------------------------------------------------------------------

/-- Per-character ASCII uppercasing, the fragment of JS
`String.prototype.toUpperCase()` exercised by engine type names. -/
def upChar (c : Char) : Char :=
  if 97 ≤ c.toNat ∧ c.toNat ≤ 122 then Char.ofNat (c.toNat - 32) else c

/-- `questdbType.toUpperCase()` on ASCII type names. -/
def jsToUpperCase (s : String) : String := String.mk (s.data.map upChar)

/-- `coerceValue(value, questdbType)` from src/types/result.ts.  The
`switch` on the uppercased wire type name is embedded as an equality
dispatch.  The wide-integer branch goes through `BigInt` (arbitrary
precision); a `BigInt` throw on a malformed string is `Except.error`.
The numeric branch is modelled on the integral values `vnum` carries;
`new Date` and base64 decoding keep their argument in this embedding
(no claim reads the result beyond the constructor). -/
def coerceValue (value : JSVal) (questdbType : String) : Except String JSVal :=
  if value.isNullish then .ok .vnull
  else
    let t := jsToUpperCase questdbType
    if t = "TIMESTAMP" ∨ t = "DATE" then .ok (.vdate (jsToString value))
    else if t = "LONG" ∨ t = "TIMESTAMP_NS" ∨ t = "LONG256" then
      match value with
      | .vstr s =>
        match parseBigInt s with
        | some n => .ok (.vbig n)
        | none => .error ("Cannot convert " ++ s ++ " to a BigInt")
      | .vnum n => .ok (.vbig n)
      | v => .ok v
    else if t = "BOOLEAN" then .ok (.vbool value.truthy)
    else if t = "BYTE" ∨ t = "SHORT" ∨ t = "INT" ∨ t = "FLOAT" ∨ t = "DOUBLE" then
      match value with
      | .vnum n => .ok (.vnum n)
      | .vbig n => .ok (.vnum n)
      | .vbool b => .ok (.vnum (if b then 1 else 0))
      | v => .ok v
    else if t = "BINARY" then .ok value
    else .ok value

-- ---------------------------------------------------------------------------
-- Helper lemmas: overlay equations for the SelectNode setters
-- ---------------------------------------------------------------------------

theorem withDistinct_eq (n : SelectNode) (d : Bool) :
    n.withDistinct d = SelectNode.mk d n.columns n.src n.joins n.whereE n.groupBy
      n.orderBy n.lim n.sampleBy n.latestOn := by
  cases n; rfl

theorem withColumns_eq (n : SelectNode) (c : List (SqlExpr × Option String)) :
    n.withColumns c = SelectNode.mk n.distinct c n.src n.joins n.whereE n.groupBy
      n.orderBy n.lim n.sampleBy n.latestOn := by
  cases n; rfl

theorem withJoins_eq (n : SelectNode) (j : List JoinClause) :
    n.withJoins j = SelectNode.mk n.distinct n.columns n.src j n.whereE n.groupBy
      n.orderBy n.lim n.sampleBy n.latestOn := by
  cases n; rfl

theorem withWhere_eq (n : SelectNode) (w : Option SqlExpr) :
    n.withWhere w = SelectNode.mk n.distinct n.columns n.src n.joins w n.groupBy
      n.orderBy n.lim n.sampleBy n.latestOn := by
  cases n; rfl

theorem withGroupBy_eq (n : SelectNode) (g : List SqlExpr) :
    n.withGroupBy g = SelectNode.mk n.distinct n.columns n.src n.joins n.whereE g
      n.orderBy n.lim n.sampleBy n.latestOn := by
  cases n; rfl

theorem withOrderBy_eq (n : SelectNode) (o : List (SqlExpr × String)) :
    n.withOrderBy o = SelectNode.mk n.distinct n.columns n.src n.joins n.whereE n.groupBy
      o n.lim n.sampleBy n.latestOn := by
  cases n; rfl

theorem withLimit_eq (n : SelectNode) (l : Option LimitClause) :
    n.withLimit l = SelectNode.mk n.distinct n.columns n.src n.joins n.whereE n.groupBy
      n.orderBy l n.sampleBy n.latestOn := by
  cases n; rfl

theorem withSampleBy_eq (n : SelectNode) (sb : Option SampleByClause) :
    n.withSampleBy sb = SelectNode.mk n.distinct n.columns n.src n.joins n.whereE n.groupBy
      n.orderBy n.lim sb n.latestOn := by
  cases n; rfl

theorem withLatestOn_eq (n : SelectNode) (lo : Option LatestOnClause) :
    n.withLatestOn lo = SelectNode.mk n.distinct n.columns n.src n.joins n.whereE n.groupBy
      n.orderBy n.lim n.sampleBy lo := by
  cases n; rfl

theorem mk_latestOn (d c s j w g o l sb lo) :
    (SelectNode.mk d c s j w g o l sb lo).latestOn = lo := rfl

theorem mk_orderBy (d c s j w g o l sb lo) :
    (SelectNode.mk d c s j w g o l sb lo).orderBy = o := rfl

theorem mk_lim (d c s j w g o l sb lo) :
    (SelectNode.mk d c s j w g o l sb lo).lim = l := rfl

-- ---------------------------------------------------------------------------
-- C3
-- ---------------------------------------------------------------------------

/-- C3: for every `ColumnType` (including binary and array), formatting
a null or an undefined value returns exactly the NULL token and does
not fail. -/
theorem formatValue_null_token (t : QuestDBType) :
    formatValue .vnull t = .ok "NULL" ∧ formatValue .vundefined t = .ok "NULL" :=
  ⟨rfl, rfl⟩

-- ---------------------------------------------------------------------------
-- C7
-- ---------------------------------------------------------------------------

/-- C7: serializing an `InsertNode` whose row matrix is empty fails
with the "at least one row" error and produces no SQL text. -/
theorem serialize_insert_empty_fails (node : InsertNode) (h : node.values = []) :
    serializeInsert node = .error "INSERT requires at least one row" := by
  simp [serializeInsert, h]

/-- Witness for C7 at a concrete empty insert node. -/
theorem serialize_insert_empty_fails_witness :
    serializeInsert ⟨"grid", ["a"], [], [.int]⟩ =
      .error "INSERT requires at least one row" :=
  serialize_insert_empty_fails ⟨"grid", ["a"], [], [.int]⟩ rfl

-- ---------------------------------------------------------------------------
-- C10
-- ---------------------------------------------------------------------------

/-- C10: `execute()` on an `InsertBuilder` with zero accumulated rows
resolves to count 0 without serializing and without handing any SQL to
the transport, while a direct `toSQL()` on the same builder raises the
"at least one row" serialization failure. -/
theorem execute_zero_rows_short_circuit (b : InsertBuilder) (h : b.rows = []) :
    b.execute = .resolved 0 [] ∧
    b.toSQL = .error "INSERT requires at least one row" := by
  constructor
  · simp [InsertBuilder.execute, h]
  · simp [InsertBuilder.toSQL, buildInsertNode, serializeInsert, h]

/-- Witness for C10 at a concrete zero-row builder. -/
theorem execute_zero_rows_short_circuit_witness :
    InsertBuilder.execute ⟨⟨"grid", [("ts", ⟨.timestamp, true⟩)]⟩, []⟩ = .resolved 0 [] ∧
    InsertBuilder.toSQL ⟨⟨"grid", [("ts", ⟨.timestamp, true⟩)]⟩, []⟩ =
      .error "INSERT requires at least one row" :=
  execute_zero_rows_short_circuit ⟨⟨"grid", [("ts", ⟨.timestamp, true⟩)]⟩, []⟩ rfl

-- ---------------------------------------------------------------------------
-- C6
-- ---------------------------------------------------------------------------

/-- C6: `toSQL()` on a Select whose node carries a SAMPLE BY clause and
an empty projection list fails before producing any SQL, for every
fill/align combination held inside the clause. -/
theorem sample_by_empty_projection_fails (b : SelectBuilder) (sb : SampleByClause)
    (h1 : b.node.sampleBy = some sb) (h2 : b.node.columns = []) :
    b.toSQL = .error
      ("SAMPLE BY requires explicit columns with at least one aggregation function. " ++
        "Use .columns() and .addExpr(fn.avg(...)) instead of SELECT *.") := by
  simp [SelectBuilder.toSQL, h1, h2]

/-- Witness for C6: a concrete star-projection builder with SAMPLE BY. -/
theorem sample_by_empty_projection_fails_witness :
    ((SelectBuilder.init ⟨"grid", []⟩).sampleBy "1h" none none).toSQL = .error
      ("SAMPLE BY requires explicit columns with at least one aggregation function. " ++
        "Use .columns() and .addExpr(fn.avg(...)) instead of SELECT *.") :=
  sample_by_empty_projection_fails ((SelectBuilder.init ⟨"grid", []⟩).sampleBy "1h" none none)
    ⟨"1h", [], none⟩ rfl rfl

-- ---------------------------------------------------------------------------
-- C9
-- ---------------------------------------------------------------------------

/-- C9: `latestOn` fails at the call itself when the bound table
definition has no designated timestamp column; when one exists, the
resulting node's LATEST ON clause carries that column as its
timestamp. -/
theorem latest_on_designated_requirement (b : SelectBuilder) (ks : List String) :
    (findDesignatedColumn b.tdef.columns = none →
      b.latestOn ks = .error "LATEST ON requires a designated timestamp column") ∧
    (∀ d, findDesignatedColumn b.tdef.columns = some d →
      ∃ bNew, b.latestOn ks = .ok bNew ∧ bNew.tdef = b.tdef ∧
        bNew.node.latestOn = some ⟨d, ks⟩) := by
  constructor
  · intro h
    simp [SelectBuilder.latestOn, h]
  · intro d h
    refine ⟨{ b with node := b.node.withLatestOn (some ⟨d, ks⟩) }, ?_, rfl, ?_⟩
    · simp [SelectBuilder.latestOn, h]
    · simp [withLatestOn_eq, mk_latestOn]

/-- Witness for C9: both branches fire at concrete tables. -/
theorem latest_on_designated_requirement_witness :
    (SelectBuilder.init ⟨"bare", [("v", ⟨.double, false⟩)]⟩).latestOn ["src"] =
      .error "LATEST ON requires a designated timestamp column" ∧
    (∃ bNew,
      (SelectBuilder.init ⟨"grid", [("ts", ⟨.timestamp, true⟩)]⟩).latestOn ["src"] =
        .ok bNew ∧
      bNew.tdef = ⟨"grid", [("ts", ⟨.timestamp, true⟩)]⟩ ∧
      bNew.node.latestOn = some ⟨"ts", ["src"]⟩) :=
  ⟨(latest_on_designated_requirement (SelectBuilder.init ⟨"bare", [("v", ⟨.double, false⟩)]⟩)
      ["src"]).1 (by decide),
   (latest_on_designated_requirement (SelectBuilder.init ⟨"grid", [("ts", ⟨.timestamp, true⟩)]⟩)
      ["src"]).2 "ts" (by decide)⟩

-- ---------------------------------------------------------------------------
-- C1
-- ---------------------------------------------------------------------------

/-- C1: every chained `SelectBuilder` call returns a builder whose node
is the prior node overlaid with exactly its own change (all other clause
fields are the parent's), and two children derived from the same parent
each reflect only their own change.  In this pure embedding the parent
builder value is immutable by construction, so the provable content of
copy-on-write isolation is the overlay shape of every child node plus
the sibling-independence equations, stated last. -/
theorem select_builder_copy_on_write (b : SelectBuilder) (cols gcols ks : List String)
    (e onR : SqlExpr) (al : Option String) (col interval dirCol dir ja : String)
    (cnt : Int) (off : Option Int) (fill : Option (Fill ⊕ List Fill))
    (algn : Option String) (rt : TableDef) (onE : Option SqlExpr)
    (tol : Option String) (d : String)
    (hdes : findDesignatedColumn b.tdef.columns = some d) :
    (b.latestOn ks = .ok ⟨b.tdef, SelectNode.mk b.node.distinct b.node.columns b.node.src
      b.node.joins b.node.whereE b.node.groupBy b.node.orderBy b.node.lim b.node.sampleBy
      (some ⟨d, ks⟩)⟩) ∧
    (b.distinct.node = SelectNode.mk true b.node.columns b.node.src b.node.joins
      b.node.whereE b.node.groupBy b.node.orderBy b.node.lim b.node.sampleBy
      b.node.latestOn) ∧
    ((b.columns cols).node = SelectNode.mk b.node.distinct
      (cols.map fun c => (SqlExpr.column c none, none)) b.node.src b.node.joins
      b.node.whereE b.node.groupBy b.node.orderBy b.node.lim b.node.sampleBy
      b.node.latestOn) ∧
    ((b.addExpr e al).node = SelectNode.mk b.node.distinct (b.node.columns ++ [(e, al)])
      b.node.src b.node.joins b.node.whereE b.node.groupBy b.node.orderBy b.node.lim
      b.node.sampleBy b.node.latestOn) ∧
    ((b.whereExpr e).node = SelectNode.mk b.node.distinct b.node.columns b.node.src
      b.node.joins (some e) b.node.groupBy b.node.orderBy b.node.lim b.node.sampleBy
      b.node.latestOn) ∧
    ((b.andWhere e).node = SelectNode.mk b.node.distinct b.node.columns b.node.src
      b.node.joins (some (match b.node.whereE with
        | some w => SqlExpr.binary "AND" w e
        | none => e)) b.node.groupBy b.node.orderBy b.node.lim b.node.sampleBy
      b.node.latestOn) ∧
    ((b.whereTimestamp col interval).node = SelectNode.mk b.node.distinct b.node.columns
      b.node.src b.node.joins (some (match b.node.whereE with
        | some w => SqlExpr.binary "AND" w (SqlExpr.timestamp_in col interval)
        | none => SqlExpr.timestamp_in col interval)) b.node.groupBy b.node.orderBy
      b.node.lim b.node.sampleBy b.node.latestOn) ∧
    ((b.orderBy dirCol dir).node = SelectNode.mk b.node.distinct b.node.columns b.node.src
      b.node.joins b.node.whereE b.node.groupBy
      (b.node.orderBy ++ [(SqlExpr.column dirCol none, dir)]) b.node.lim b.node.sampleBy
      b.node.latestOn) ∧
    ((b.limit cnt off).node = SelectNode.mk b.node.distinct b.node.columns b.node.src
      b.node.joins b.node.whereE b.node.groupBy b.node.orderBy (some ⟨cnt, off⟩)
      b.node.sampleBy b.node.latestOn) ∧
    ((b.groupBy gcols).node = SelectNode.mk b.node.distinct b.node.columns b.node.src
      b.node.joins b.node.whereE (gcols.map fun c => SqlExpr.column c none) b.node.orderBy
      b.node.lim b.node.sampleBy b.node.latestOn) ∧
    ((b.sampleBy interval fill algn).node = SelectNode.mk b.node.distinct b.node.columns
      b.node.src b.node.joins b.node.whereE b.node.groupBy b.node.orderBy b.node.lim
      (some ⟨interval, normalizeFill fill, algn⟩) b.node.latestOn) ∧
    ((b.asofJoin rt ja onE tol).node = SelectNode.mk b.node.distinct b.node.columns
      b.node.src (b.node.joins ++ [JoinClause.mk "ASOF" (.table rt.name (some ja)) onE tol])
      b.node.whereE b.node.groupBy b.node.orderBy b.node.lim b.node.sampleBy
      b.node.latestOn) ∧
    ((b.ltJoin rt ja onE tol).node = SelectNode.mk b.node.distinct b.node.columns
      b.node.src (b.node.joins ++ [JoinClause.mk "LT" (.table rt.name (some ja)) onE tol])
      b.node.whereE b.node.groupBy b.node.orderBy b.node.lim b.node.sampleBy
      b.node.latestOn) ∧
    ((b.spliceJoin rt ja onE).node = SelectNode.mk b.node.distinct b.node.columns
      b.node.src (b.node.joins ++ [JoinClause.mk "SPLICE" (.table rt.name (some ja)) onE none])
      b.node.whereE b.node.groupBy b.node.orderBy b.node.lim b.node.sampleBy
      b.node.latestOn) ∧
    ((b.innerJoin rt ja onR).node = SelectNode.mk b.node.distinct b.node.columns
      b.node.src (b.node.joins ++ [JoinClause.mk "INNER" (.table rt.name (some ja)) (some onR) none])
      b.node.whereE b.node.groupBy b.node.orderBy b.node.lim b.node.sampleBy
      b.node.latestOn) ∧
    ((b.leftJoin rt ja onR).node = SelectNode.mk b.node.distinct b.node.columns
      b.node.src (b.node.joins ++ [JoinClause.mk "LEFT" (.table rt.name (some ja)) (some onR) none])
      b.node.whereE b.node.groupBy b.node.orderBy b.node.lim b.node.sampleBy
      b.node.latestOn) ∧
    ((b.crossJoin rt ja).node = SelectNode.mk b.node.distinct b.node.columns
      b.node.src (b.node.joins ++ [JoinClause.mk "CROSS" (.table rt.name (some ja)) none none])
      b.node.whereE b.node.groupBy b.node.orderBy b.node.lim b.node.sampleBy
      b.node.latestOn) ∧
    ((b.limit 10 none).node.orderBy = b.node.orderBy ∧
     (b.limit 10 none).node.lim = some ⟨10, none⟩ ∧
     (b.orderBy dirCol dir).node.lim = b.node.lim ∧
     (b.orderBy dirCol dir).node.orderBy = b.node.orderBy ++ [(SqlExpr.column dirCol none, dir)]) := by
  obtain ⟨t, n⟩ := b
  refine ⟨?_, ?_, ?_, ?_, ?_, ?_, ?_, ?_, ?_, ?_, ?_, ?_, ?_, ?_, ?_, ?_, ?_, ?_⟩
  · simp only [SelectBuilder.latestOn, hdes]
    cases n; rfl
  all_goals cases n
  all_goals first
    | rfl
    | exact ⟨rfl, rfl, rfl, rfl⟩

/-- Witness for C1 at a concrete designated-timestamp table, showing
the `latestOn` conjunct with its hypothesis discharged. -/
theorem select_builder_copy_on_write_witness :
    (SelectBuilder.init ⟨"grid", [("ts", ⟨.timestamp, true⟩)]⟩).latestOn ["src"] =
      .ok ⟨⟨"grid", [("ts", ⟨.timestamp, true⟩)]⟩,
        SelectNode.mk false [] (.table "grid" none) [] none [] [] none none
          (some ⟨"ts", ["src"]⟩)⟩ :=
  (select_builder_copy_on_write (SelectBuilder.init ⟨"grid", [("ts", ⟨.timestamp, true⟩)]⟩)
    [] [] ["src"] (.raw "x") (.raw "y") none "c" "1h" "c" "ASC" "j" 1 none none none
    ⟨"r", []⟩ none none "ts" (by decide)).1

-- ---------------------------------------------------------------------------
-- C2
-- ---------------------------------------------------------------------------

theorem serializeExpr_foldl_binary (op : String) (l : List SqlExpr) (acc : SqlExpr)
    (sacc : String) (ss : List String) (ha : serializeExpr acc = .ok sacc)
    (hl : serializeExprList l = .ok ss) :
    serializeExpr (l.foldl (fun a x => SqlExpr.binary op a x) acc) =
      .ok (ss.foldl (fun a s => "(" ++ a ++ " " ++ op ++ " " ++ s ++ ")") sacc) := by
  induction l generalizing acc sacc ss with
  | nil =>
    simp only [serializeExprList] at hl
    cases hl
    simpa using ha
  | cons e rest ih =>
    rw [serializeExprList] at hl
    cases he : serializeExpr e with
    | error m => rw [he] at hl; simp [Bind.bind, Except.bind] at hl
    | ok se =>
      rw [he] at hl
      cases hrest : serializeExprList rest with
      | error m => rw [hrest] at hl; simp [Bind.bind, Except.bind] at hl
      | ok srest =>
        rw [hrest] at hl
        simp [Bind.bind, Except.bind] at hl
        cases hl
        have hstep : serializeExpr (SqlExpr.binary op acc e) =
            .ok ("(" ++ sacc ++ " " ++ op ++ " " ++ se ++ ")") := by
          rw [serializeExpr, ha, he]
          rfl
        simpa using ih _ _ _ hstep hrest

/-- C2: `and` (and likewise `or`) fails with an argument-count error on
zero arguments, returns a single argument unchanged, and left-folds two
or more arguments into a left-associative binary chain whose
serialization is fully parenthesized:
`(((e1 AND e2) AND e3) ...)`. -/
theorem and_or_combinator_spec :
    (andCombine [] = .error "and() requires at least one expression") ∧
    (orCombine [] = .error "or() requires at least one expression") ∧
    (∀ e, andCombine [e] = .ok e ∧ orCombine [e] = .ok e) ∧
    (∀ e1 e2 rest,
      andCombine (e1 :: e2 :: rest) = .ok ((e2 :: rest).foldl mkAnd e1) ∧
      orCombine (e1 :: e2 :: rest) = .ok ((e2 :: rest).foldl mkOr e1)) ∧
    (∀ e1 e2 rest s1 ss, serializeExpr e1 = .ok s1 →
      serializeExprList (e2 :: rest) = .ok ss →
      serializeExpr ((e2 :: rest).foldl mkAnd e1) =
        .ok (ss.foldl (fun a s => "(" ++ a ++ " AND " ++ s ++ ")") s1) ∧
      serializeExpr ((e2 :: rest).foldl mkOr e1) =
        .ok (ss.foldl (fun a s => "(" ++ a ++ " OR " ++ s ++ ")") s1)) := by
  refine ⟨rfl, rfl, fun e => ⟨rfl, rfl⟩, fun e1 e2 rest => ⟨rfl, rfl⟩, ?_⟩
  intro e1 e2 rest s1 ss h1 hlist
  have bridgeA : (fun (a s : String) => "(" ++ a ++ " " ++ "AND" ++ " " ++ s ++ ")") =
      fun (a s : String) => "(" ++ a ++ " AND " ++ s ++ ")" := by
    funext a s
    apply String.ext
    simp [String.data_append]
  have bridgeO : (fun (a s : String) => "(" ++ a ++ " " ++ "OR" ++ " " ++ s ++ ")") =
      fun (a s : String) => "(" ++ a ++ " OR " ++ s ++ ")" := by
    funext a s
    apply String.ext
    simp [String.data_append]
  have hA := serializeExpr_foldl_binary "AND" (e2 :: rest) e1 s1 ss h1 hlist
  have hO := serializeExpr_foldl_binary "OR" (e2 :: rest) e1 s1 ss h1 hlist
  rw [bridgeA] at hA
  rw [bridgeO] at hO
  exact ⟨hA, hO⟩

/-- Witness for C2: three raw expressions fold and serialize to the
fully parenthesized left-associative chain. -/
theorem and_or_combinator_spec_witness :
    andCombine [.raw "a", .raw "b", .raw "c"] =
      .ok (mkAnd (mkAnd (.raw "a") (.raw "b")) (.raw "c")) ∧
    serializeExpr (mkAnd (mkAnd (.raw "a") (.raw "b")) (.raw "c")) =
      .ok "((a AND b) AND c)" := by
  have h := and_or_combinator_spec
  refine ⟨(h.2.2.2.1 (.raw "a") (.raw "b") [.raw "c"]).1, ?_⟩
  have h2 := (h.2.2.2.2 (.raw "a") (.raw "b") [.raw "c"] "a" ["b", "c"] rfl rfl).1
  simpa using h2

-- ---------------------------------------------------------------------------
-- C4
-- ---------------------------------------------------------------------------

theorem doubleQuoteChars_length (l : List Char) :
    l.length ≤ (doubleQuoteChars l).length := by
  induction l with
  | nil => simp [doubleQuoteChars]
  | cons c cs ih =>
    by_cases h : c = '"' <;> simp [doubleQuoteChars, h] <;> omega

theorem escapeIdentifier_of_safe {x : String} (h : isSafeIdent x = true) :
    escapeIdentifier x = x := by
  simp [escapeIdentifier, h]

theorem escapeIdentifier_of_not_safe {x : String} (h : isSafeIdent x = false) :
    escapeIdentifier x = String.mk ('"' :: (doubleQuoteChars x.data ++ ['"'])) := by
  simp [escapeIdentifier, h]

theorem quoted_form_not_safe (l : List Char) :
    isSafeIdent (String.mk ('"' :: l)) = false := by
  simp [isSafeIdent, isSafeIdentChars, isIdentStart]

/-- The amended C4: a safe identifier passes through unchanged, any
other identifier is wrapped in double quotes with internal double
quotes doubled, and escaping is idempotent exactly on the identifiers
that did NOT require quoting (on a quoted form a second escape always
changes it). -/
theorem escape_identifier_spec (x : String) :
    (isSafeIdent x = true → escapeIdentifier x = x) ∧
    (isSafeIdent x = false →
      escapeIdentifier x = String.mk ('"' :: (doubleQuoteChars x.data ++ ['"']))) ∧
    ((escapeIdentifier (escapeIdentifier x) = escapeIdentifier x) ↔ isSafeIdent x = true) := by
  refine ⟨fun h => escapeIdentifier_of_safe h, fun h => escapeIdentifier_of_not_safe h, ?_⟩
  cases h : isSafeIdent x with
  | true => simp [escapeIdentifier_of_safe h]
  | false =>
    rw [escapeIdentifier_of_not_safe h]
    refine ⟨fun heq => ?_, fun hcontra => absurd hcontra (by simp)⟩
    exfalso
    rw [escapeIdentifier_of_not_safe (quoted_form_not_safe _)] at heq
    have hd := congrArg (fun s : String => s.data.length) heq
    have hlen := doubleQuoteChars_length ('"' :: (doubleQuoteChars x.data ++ ['"']))
    simp at hd hlen
    omega

/-- Witness for C4: the hypothesis-bearing branches of the amended
theorem fired at concrete identifiers. -/
theorem escape_identifier_spec_witness :
    escapeIdentifier "abc" = "abc" ∧
    escapeIdentifier "a b" = String.mk ('"' :: (doubleQuoteChars "a b".data ++ ['"'])) :=
  ⟨(escape_identifier_spec "abc").1 (by decide),
   (escape_identifier_spec "a b").2.1 (by decide)⟩

/-- Counterexample for C4 as stated: the claim asserts
`escapeIdentifier (escapeIdentifier x) = escapeIdentifier x` is false
unless `x` already required quoting, yet at `x = "abc"`, which does not
require quoting, the equality holds. -/
theorem escape_identifier_claim_counterexample :
    isSafeIdent "abc" = true ∧
    escapeIdentifier (escapeIdentifier "abc") = escapeIdentifier "abc" := by
  refine ⟨by decide, ?_⟩
  have h : escapeIdentifier "abc" = "abc" := by
    simp [escapeIdentifier, isSafeIdent]
    decide
  rw [h, h]

-- ---------------------------------------------------------------------------
-- C5 : decimal round trip of wide integers
-- ---------------------------------------------------------------------------

theorem data_mk (l : List Char) : (String.mk l).data = l := rfl

theorem digitToChar_toNat (d : Nat) (h : d < 10) : (digitToChar d).toNat = 48 + d := by
  unfold digitToChar Char.ofNat
  rw [dif_pos]
  · rfl
  · left
    omega

theorem charToDigit_digitToChar (d : Nat) (h : d < 10) :
    charToDigit (digitToChar d) = some d := by
  unfold charToDigit
  rw [digitToChar_toNat d h, if_pos ⟨by omega, by omega⟩]
  congr 1
  omega

/-- The accumulator step of `parseNatDigits`. -/
def parseStep (acc : Option Nat) (c : Char) : Option Nat :=
  acc.bind fun a => (charToDigit c).map fun d => a * 10 + d

theorem parseNatDigits_eq_foldl (cs : List Char) :
    parseNatDigits cs = cs.foldl parseStep (some 0) := rfl

theorem foldl_parseStep_map (ds : List Nat) (hds : ∀ d ∈ ds, d < 10) (a : Nat) :
    (ds.map digitToChar).foldl parseStep (some a) =
      some (ds.foldl (fun x d => x * 10 + d) a) := by
  induction ds generalizing a with
  | nil => simp
  | cons d rest ih =>
    have hd : d < 10 := hds d (by simp)
    simp only [List.map_cons, List.foldl_cons]
    rw [show parseStep (some a) (digitToChar d) = some (a * 10 + d) by
      simp [parseStep, charToDigit_digitToChar d hd]]
    exact ih (fun x hx => hds x (by simp [hx])) _

theorem foldl_reverse_ofDigits (L : List Nat) (a : Nat) :
    L.reverse.foldl (fun x d => x * 10 + d) a = a * 10 ^ L.length + Nat.ofDigits 10 L := by
  induction L generalizing a with
  | nil => simp [Nat.ofDigits]
  | cons d L ih =>
    simp only [List.reverse_cons, List.foldl_append, List.foldl_cons, List.foldl_nil, ih,
      Nat.ofDigits_cons, List.length_cons]
    ring

theorem parseNatDigits_natDecChars (n : Nat) : parseNatDigits (natDecChars n) = some n := by
  by_cases h : n = 0
  · subst h
    decide
  · rw [natDecChars, if_neg h, parseNatDigits_eq_foldl, ← List.map_reverse]
    rw [foldl_parseStep_map _ (fun d hd => Nat.digits_lt_base (by norm_num)
      (List.mem_reverse.mp hd)) 0]
    rw [foldl_reverse_ofDigits]
    simp [Nat.ofDigits_digits]

theorem natDecChars_ne_nil (n : Nat) : natDecChars n ≠ [] := by
  unfold natDecChars
  by_cases h : n = 0
  · simp [h]
  · rw [if_neg h]
    simp [Nat.digits_ne_nil_iff_ne_zero.mpr h]

theorem natDecChars_digit (n : Nat) (c : Char) (hc : c ∈ natDecChars n) :
    48 ≤ c.toNat ∧ c.toNat ≤ 57 := by
  unfold natDecChars at hc
  by_cases h : n = 0
  · rw [if_pos h] at hc
    simp at hc
    subst hc
    rw [digitToChar_toNat 0 (by omega)]
    omega
  · rw [if_neg h] at hc
    rw [List.mem_reverse, List.mem_map] at hc
    obtain ⟨d, hd, rfl⟩ := hc
    have : d < 10 := Nat.digits_lt_base (by norm_num) hd
    rw [digitToChar_toNat d this]
    omega

theorem parseBigInt_mk_cons (c : Char) (rest : List Char) :
    parseBigInt (String.mk (c :: rest)) =
      if c = '-' then (parseNonEmptyDigits rest).map (fun n => -(n : Int))
      else if c = '+' then (parseNonEmptyDigits rest).map (fun n => (n : Int))
      else (parseNatDigits (c :: rest)).map (fun n => (n : Int)) := rfl

theorem parseBigInt_natDec (n : Nat) : parseBigInt (natDec n) = some (n : Int) := by
  obtain ⟨c, rest, hcons⟩ := List.exists_cons_of_ne_nil (natDecChars_ne_nil n)
  have hdig : 48 ≤ c.toNat ∧ c.toNat ≤ 57 := natDecChars_digit n c (by rw [hcons]; simp)
  have hminus : ¬(c = '-') := by
    intro hc
    subst hc
    revert hdig
    decide
  have hplus : ¬(c = '+') := by
    intro hc
    subst hc
    revert hdig
    decide
  rw [show natDec n = String.mk (c :: rest) by rw [natDec, hcons]]
  rw [parseBigInt_mk_cons, if_neg hminus, if_neg hplus, ← hcons, parseNatDigits_natDecChars]
  rfl

theorem parseBigInt_intDec (i : Int) : parseBigInt (intDec i) = some i := by
  cases i with
  | ofNat n => exact parseBigInt_natDec n
  | negSucc n =>
    have hrepr : intDec (.negSucc n) = String.mk ('-' :: natDecChars (n + 1)) := by
      apply String.ext
      rw [intDec]
      rw [String.data_append]
      rfl
    rw [hrepr, parseBigInt_mk_cons, if_pos rfl]
    rw [parseNonEmptyDigits, if_neg (by simp [natDecChars_ne_nil])]
    rw [parseNatDigits_natDecChars]
    simp [Int.negSucc_eq]

theorem escapeQuoteChars_of_no_quote (l : List Char) (h : ∀ c ∈ l, c ≠ quoteChar) :
    escapeQuoteChars l = l := by
  induction l with
  | nil => rfl
  | cons c cs ih =>
    rw [escapeQuoteChars, if_neg (h c (by simp))]
    rw [ih (fun x hx => h x (by simp [hx]))]

theorem escapeString_intDec (i : Int) : escapeString (intDec i) = intDec i := by
  have hq : ∀ c ∈ (intDec i).data, c ≠ quoteChar := by
    intro c hc heq
    have h39 : c.toNat = 39 := by rw [heq]; decide
    cases i with
    | ofNat n =>
      rw [show (intDec (.ofNat n)).data = natDecChars n from rfl] at hc
      have := natDecChars_digit n c hc
      omega
    | negSucc n =>
      rw [show (intDec (.negSucc n)).data = ("-" ++ natDec (n + 1)).data from rfl,
        String.data_append, show ("-" : String).data = ['-'] from rfl] at hc
      rcases List.mem_cons.mp hc with rfl | hc2
      · revert h39; decide
      · have := natDecChars_digit (n + 1) c hc2
        omega
  rw [escapeString, escapeQuoteChars_of_no_quote _ hq]

/-- C5: a wide-integer value (long / long256 / timestamp-nanos) formats
to its exact decimal text, and decoding an engine response carrying
that same text returns the same integer at full precision; both paths
stay in arbitrary-precision integers. -/
theorem wide_integer_roundtrip (i : Int) :
    formatValue (.vbig i) .long = .ok (intDec i) ∧
    formatValue (.vbig i) .timestamp_ns = .ok (intDec i) ∧
    formatValue (.vbig i) .long256 = .ok (sq ++ intDec i ++ sq) ∧
    coerceValue (.vstr (intDec i)) "LONG" = .ok (.vbig i) ∧
    coerceValue (.vstr (intDec i)) "TIMESTAMP_NS" = .ok (.vbig i) ∧
    coerceValue (.vstr (intDec i)) "LONG256" = .ok (.vbig i) := by
  refine ⟨by simp [formatValue, jsToString, JSVal.isNullish],
    by simp [formatValue, jsToString, JSVal.isNullish], ?_, ?_, ?_, ?_⟩
  · simp [formatValue, jsToString, JSVal.isNullish, quoted, escapeString_intDec]
  all_goals
    simp [coerceValue, JSVal.isNullish, parseBigInt_intDec,
      show jsToUpperCase "LONG" = "LONG" from by decide,
      show jsToUpperCase "TIMESTAMP_NS" = "TIMESTAMP_NS" from by decide,
      show jsToUpperCase "LONG256" = "LONG256" from by decide]

-- ---------------------------------------------------------------------------
-- C8
-- ---------------------------------------------------------------------------

theorem serializeCells_raw_at (cells : List Cell) (ts : List QuestDBType)
    (ss : List String) (h : serializeCells cells ts = .ok ss) :
    ∀ (i : Nat) (s : String), cells[i]? = some (Cell.rawSQL s) → ss[i]? = some s := by
  induction cells generalizing ts ss with
  | nil => intro i s hi; simp at hi
  | cons c cs ih =>
    intro i s hi
    rw [serializeCells] at h
    cases hu : cellRender c (ts.headD .varchar) with
    | error m => rw [hu] at h; simp [Bind.bind, Except.bind] at h
    | ok s0 =>
      rw [hu] at h
      cases hrest : serializeCells cs ts.tail with
      | error m => rw [hrest] at h; simp [Bind.bind, Except.bind] at h
      | ok ss0 =>
        rw [hrest] at h
        simp [Bind.bind, Except.bind] at h
        subst h
        match i with
        | 0 =>
          simp at hi
          subst hi
          rw [show cellRender (.rawSQL s) (ts.headD .varchar) = .ok s from rfl] at hu
          cases hu
          simp
        | Nat.succ j =>
          simp only [List.getElem?_cons_succ] at hi ⊢
          exact ih ts.tail ss0 hrest j s hi

theorem allKeysHas_false_of_omitted (rows : List Row) (d : String)
    (homit : ∀ r ∈ rows, (rowGet r d).isUndefined = true) :
    allKeysHas rows d = false := by
  unfold allKeysHas
  rw [List.any_eq_false]
  intro r hr
  simp [homit r hr]

theorem pickDesignated_eq (columns : List (String × QCol)) (rows : List Row)
    (d : String) (cd : QCol) (hmem : (d, cd) ∈ columns) (hdes : cd.designated = true)
    (huniq : ∀ p ∈ columns, p.2.designated = true → p.1 = d)
    (homit : allKeysHas rows d = false) :
    pickDesignated columns rows = some d := by
  unfold pickDesignated
  cases hf : (columns.find? fun e => e.2.designated && !(allKeysHas rows e.1)) with
  | none =>
    exfalso
    rw [List.find?_eq_none] at hf
    exact absurd (by simp [hdes, homit] : ((d, cd).2.designated && !(allKeysHas rows (d, cd).1)) = true)
      (by simpa using hf (d, cd) hmem)
  | some e =>
    have hp := List.find?_some hf
    have hm := List.mem_of_find?_eq_some hf
    simp only [Bool.and_eq_true] at hp
    have : e.1 = d := huniq e hm hp.1
    simp [this]

/-- C8: when the bound table has a (unique) designated timestamp column
`d` and every accumulated row omits it, the generated insert node lists
`d` among its columns and carries the raw server-side `now()` token in
the corresponding value position of every row; serializing any such row
emits the token text verbatim (unquoted) at that position. -/
theorem insert_designated_now_token (tdef : TableDef) (rows : List Row) (d : String)
    (cd : QCol) (hmem : (d, cd) ∈ tdef.columns) (hdes : cd.designated = true)
    (huniq : ∀ p ∈ tdef.columns, p.2.designated = true → p.1 = d)
    (hrows : rows ≠ [])
    (homit : ∀ r ∈ rows, (rowGet r d).isUndefined = true) :
    d ∈ (buildInsertNode tdef rows).columns ∧
    (buildInsertNode tdef rows).values.length = rows.length ∧
    (∀ cells ∈ (buildInsertNode tdef rows).values, ∃ i : Nat,
      (buildInsertNode tdef rows).columns[i]? = some d ∧
      cells[i]? = some (Cell.rawSQL "now()")) ∧
    (∀ cells ∈ (buildInsertNode tdef rows).values, ∀ (ts : List QuestDBType) (ss : List String),
      serializeCells cells ts = .ok ss → ∃ i : Nat,
      (buildInsertNode tdef rows).columns[i]? = some d ∧ ss[i]? = some "now()") := by
  have hak : allKeysHas rows d = false := allKeysHas_false_of_omitted rows d homit
  have hpick : pickDesignated tdef.columns rows = some d :=
    pickDesignated_eq tdef.columns rows d cd hmem hdes huniq hak
  have hentry : (d, cd) ∈ insertedEntries tdef.columns rows := by
    rw [insertedEntries, List.mem_filter]
    exact ⟨hmem, by simp [hpick]⟩
  have hdcol : d ∈ (buildInsertNode tdef rows).columns := by
    rw [buildInsertNode]
    exact List.mem_map.mpr ⟨(d, cd), hentry, rfl⟩
  have hcells : ∀ cells ∈ (buildInsertNode tdef rows).values, ∃ i : Nat,
      (buildInsertNode tdef rows).columns[i]? = some d ∧
      cells[i]? = some (Cell.rawSQL "now()") := by
    intro cells hcellsmem
    rw [buildInsertNode, List.mem_map] at hcellsmem
    obtain ⟨r, hr, rfl⟩ := hcellsmem
    obtain ⟨i, hi⟩ := List.mem_iff_getElem?.mp hdcol
    refine ⟨i, hi, ?_⟩
    rw [buildInsertNode] at hi
    rw [List.getElem?_map, hi]
    simp [cellFor, hpick, homit r hr]
  refine ⟨hdcol, by simp [buildInsertNode], hcells, ?_⟩
  intro cells hcellsmem ts ss hser
  obtain ⟨i, hcol, hcell⟩ := hcells cells hcellsmem
  exact ⟨i, hcol, serializeCells_raw_at cells ts ss hser i "now()" hcell⟩

/-- Witness for C8: a concrete two-column table whose designated `ts`
column is omitted by the single row. -/
theorem insert_designated_now_token_witness :
    "ts" ∈ (buildInsertNode ⟨"grid", [("ts", ⟨.timestamp, true⟩), ("v", ⟨.double, false⟩)]⟩
      [[("v", JSVal.vnum 1)]]).columns :=
  (insert_designated_now_token
    ⟨"grid", [("ts", ⟨.timestamp, true⟩), ("v", ⟨.double, false⟩)]⟩
    [[("v", JSVal.vnum 1)]] "ts" ⟨.timestamp, true⟩
    (by decide) rfl (by decide) (by simp) (by decide)).1

end QuestDB
